import Mathlib

/-!
Shallow embedding of the Controme Home Assistant integration
(custom_components/controme: climate.py, config_flow.py, sensor.py).

JSON values from the controller are modelled by `JVal`; dictionaries are
association lists, `dict.get` is `jget`, and Python truthiness is
`JVal.truthy`.  Fallible Python code (raised exceptions) is modelled with
`Except` or with explicit outcome constructors; HTTP responses are oracles
passed as arguments (`none` = network exception, `some s` = status `s`).
-/

namespace Controme

/-- JSON scalar / composite values as delivered by the controller. -/
inductive JVal where
  | str (s : String)
  | num (q : Rat)
  | bool (b : Bool)
  | null
  | arr (xs : List JVal)
  | obj (kvs : List (String × JVal))

/-- Python truthiness (`bool(v)`) of a JSON value. -/
def JVal.truthy : JVal → Bool
  | JVal.str s => s != ""
  | JVal.num q => q != 0
  | JVal.bool b => b
  | JVal.null => false
  | JVal.arr xs => !xs.isEmpty
  | JVal.obj kvs => !kvs.isEmpty

/-- Python `d.get(key)` on a JSON object: `none` when the key is absent or
the value is not an object. -/
def jget (v : JVal) (k : String) : Option JVal :=
  match v with
  | JVal.obj kvs => kvs.lookup k
  | _ => none

/-- Python truthiness of `d.get(key)`: `None` is falsy. -/
def optTruthy (v : Option JVal) : Bool :=
  match v with
  | none => false
  | some w => w.truthy

/-- View an optional JSON value as a list, defaulting to `[]`; this models
`floor.get("raeume", [])` and `room.get("sensoren", [])`, whose values are
JSON arrays in the controller schema when present. -/
def jarrOf (v : Option JVal) : List JVal :=
  match v with
  | some (JVal.arr xs) => xs
  | _ => []

/-- Python `str.startswith(p)`. -/
def pyStartsWith (s p : String) : Bool := p.data.isPrefixOf s.data

/-- Python `str.endswith(p)`. -/
def pyEndsWith (s p : String) : Bool := p.data.isSuffixOf s.data

/-- Split a character list at every occurrence of `sep`; like Python
`str.split(sep)` for a one-character separator, the result is never empty
and keeps empty pieces. -/
def splitOnChar (sep : Char) : List Char → List (List Char)
  | [] => [[]]
  | c :: cs =>
    if c = sep then [] :: splitOnChar sep cs
    else
      match splitOnChar sep cs with
      | [] => [[c]]
      | w :: ws => (c :: w) :: ws

/-- Python `s.split(sep)` for a one-character separator. -/
def pySplit (s : String) (sep : Char) : List String :=
  (splitOnChar sep s.data).map (fun cs => ⟨cs⟩)

/-- Python `sep.join(parts)`. -/
def joinWith (sep : String) : List String → String
  | [] => ""
  | [x] => x
  | x :: xs => x ++ sep ++ joinWith sep xs

/-- Drop the first '.' of a character list, keeping everything else. -/
def dropFirstDot : List Char → List Char
  | [] => []
  | c :: cs => if c = '.' then cs else c :: dropFirstDot cs

/-- Python `s.replace(".", "", 1)`: remove the first '.' when present. -/
def replaceFirstDot (s : String) : String := ⟨dropFirstDot s.data⟩

/-- Python `str.isdigit()`: non-empty and every character a decimal digit. -/
def pyIsDigit (s : String) : Bool := !s.data.isEmpty && s.data.all Char.isDigit

/-- Python `str.rstrip("/")`: drop all trailing '/' characters. -/
def rstripSlash (s : String) : String := ⟨(s.data.reverse.dropWhile (fun c => c = '/')).reverse⟩

/-- Numeric value of a list of decimal digit characters. -/
def digitsToNat (cs : List Char) : Nat := cs.foldl (fun a c => a * 10 + (c.toNat - 48)) 0

/-- Python `float(s)` on the decimal-literal strings that can reach the
conversion in `_update_from_data` (digits with at most one dot); every other
string is a `ValueError`, modelled as `none`. -/
def pyFloatOfString (s : String) : Option Rat :=
  match splitOnChar '.' s.data with
  | [i] => if !i.isEmpty && i.all Char.isDigit then some ((digitsToNat i : Rat)) else none
  | [i, f] =>
    if !(i ++ f).isEmpty && (i ++ f).all Char.isDigit then
      some ((digitsToNat (i ++ f) : Rat) / (10 : Rat) ^ f.length)
    else none
  | _ => none

/-- Python `float(v)` for JSON values: numbers and booleans convert, strings
parse as decimal literals, everything else raises (TypeError), modelled
as `none`. -/
def pyFloat : JVal → Option Rat
  | JVal.num q => some q
  | JVal.bool b => some (if b then 1 else 0)
  | JVal.str s => pyFloatOfString s
  | _ => none

/-- Modelled from the spec: the sensor-type → JSON-key map `VALUE_MAP` lives in
`const.py`, which is not among the provided sources.  The keys are the room
field names the spec and `climate.py` use (`temperatur`, `solltemperatur`,
`luftfeuchte`, `betriebsart`). -/
def VALUE_MAP : List (String × String) :=
  [("current", "temperatur"), ("target", "solltemperatur"),
   ("humidity", "luftfeuchte"), ("total_offset", "total_offset"),
   ("operation_mode", "betriebsart")]

/-- Device classes relevant to the numeric-coercion branch of sensor.py. -/
inductive SensorDeviceClass where
  | temperature
  | humidity
deriving DecidableEq

/-- One entry of `SENSOR_TYPES` (sensor.py 43-79): only the key and the device
class matter for the embedded behaviour. -/
structure SensorDesc where
  key : String
  deviceClass : Option SensorDeviceClass
deriving DecidableEq

/-- sensor.py 43-79: the tuple of sensor entity descriptions. -/
def SENSOR_TYPES : List SensorDesc :=
  [⟨"current", some SensorDeviceClass.temperature⟩,
   ⟨"target", some SensorDeviceClass.temperature⟩,
   ⟨"return", some SensorDeviceClass.temperature⟩,
   ⟨"total_offset", some SensorDeviceClass.temperature⟩,
   ⟨"humidity", some SensorDeviceClass.humidity⟩]

/-- sensor.py 175-181, `__init_sensor_description`: pick the description whose
key equals `sensor_type.split("_")[0]`, falling back to `SENSOR_TYPES[0]`
(the current-temperature description). -/
def sensorDescOf (sensorType : String) : SensorDesc :=
  let baseType := (pySplit sensorType '_').headD ""
  (SENSOR_TYPES.find? (fun d => d.key == baseType)).getD
    ⟨"current", some SensorDeviceClass.temperature⟩

/-- sensor.py 253-287, `ContromeSensor._update_from_data`.  The sensor state is
the pair (native value, available); `prev` is the state before the call, kept
when the `return_` branch finds no matching raw sensor.  The numeric branch
catches float conversion errors (try/except at 279-284), so the function is
total: no parse error can escape. -/
def updateFromData (sensorType : String) (roomData : JVal)
    (prev : Option JVal × Bool) : Option JVal × Bool :=
  if pyStartsWith sensorType "return_" then
    let sensorId := joinWith "_" ((pySplit sensorType '_').drop 1)
    match (jarrOf (jget roomData "sensoren")).find? (fun s =>
        match jget s "name" with
        | some (JVal.str n) => n == sensorId
        | _ => false) with
    | some sensor =>
      let value := jget sensor "wert"
      match value with
      | some (JVal.str sv) =>
        if !pyIsDigit (replaceFirstDot sv) then (none, false) else (value, true)
      | _ => (value, true)
    | none => prev
  else
    let value :=
      match VALUE_MAP.lookup sensorType with
      | some key => jget roomData key
      | none => none
    if (sensorDescOf sensorType).deviceClass = some SensorDeviceClass.temperature
        ∨ (sensorDescOf sensorType).deviceClass = some SensorDeviceClass.humidity then
      if !optTruthy value
          || (match value with
              | some (JVal.str sv) => !pyIsDigit (replaceFirstDot sv)
              | _ => false) then
        (none, false)
      else
        match value with
        | none => (none, true)
        | some v =>
          match pyFloat v with
          | some q => (some (JVal.num q), true)
          | none => (none, false)
    else
      (value, value.isSome)

/-- climate.py 41-44 / sensor.py 106-110: the room list of a floor, with the
floor itself synthesised as the sole room when the room list is empty or
absent and the floor carries a temperature or target-temperature key. -/
def roomsOfFloor (floor : JVal) : List JVal :=
  let rooms := jarrOf (jget floor "raeume")
  if rooms.isEmpty && ((jget floor "temperatur").isSome
      || (jget floor "solltemperatur").isSome) then
    [floor]
  else
    rooms

/-- climate.py 46-49 / sensor.py 113-116: room id resolution during platform
setup.  When `room.get("id")` is falsy, the fallback f-string references
`index`, a name bound nowhere in the enclosing function, so Python raises
NameError before producing any fallback id. -/
def resolveRoomId (room : JVal) : Except String JVal :=
  let roomId := jget room "id"
  if !optTruthy roomId then
    Except.error "NameError: name index is not defined"
  else
    Except.ok (roomId.getD JVal.null)

/-- Platform setup room-id pass over all floors (climate.py 38-49 /
sensor.py 103-116): resolve every room id, propagating a NameError. -/
def setupRoomIds (data : List JVal) : Except String (List JVal) :=
  data.foldlM (fun acc floor =>
    (roomsOfFloor floor).foldlM (fun acc2 room => do
      let rid ← resolveRoomId room
      pure (acc2 ++ [rid])) acc) []

/-- Modelled from the spec: configuration keys are declared in `const.py`,
which is not among the provided sources; only their identity as distinct
string keys matters for the embedded flow. -/
def CONF_API_URL : String := "api_url"

/-- Modelled from the spec: the username configuration key from `const.py`. -/
def CONF_USER : String := "username"

/-- Modelled from the spec: the password configuration key from `const.py`. -/
def CONF_PASSWORD : String := "password"

/-- Modelled from the spec: the house-id configuration key from `const.py`. -/
def CONF_HAUS_ID : String := "haus_id"

/-- A system found by the network scan (url and display title). -/
structure ConfigSystem where
  url : String
  title : String
deriving DecidableEq

/-- Mutable state of a `ContromeConfigFlow` instance: the three attributes set
in `__init__` (config_flow.py 35-39) plus `houseId`, modelling the attribute
`_house_id` that line 190 reads but that is assigned nowhere in the class
(`none` = attribute absent, so reading it raises AttributeError). -/
structure FlowState where
  discoveredSystems : List ConfigSystem
  userInput : List (String × String)
  scanAlreadyRun : Bool
  houseId : Option String
deriving DecidableEq

/-- config_flow.py 35-39: the state of a freshly constructed flow. -/
def initFlowState : FlowState := ⟨[], [], false, none⟩

/-- Result handed back to the host by a flow step: a re-shown form with inline
errors, or a created configuration entry. -/
inductive FlowResult where
  | showForm (stepId : String) (errors : List (String × String))
  | createEntry (title : String) (data : List (String × String))
deriving DecidableEq

/-- config_flow.py 188-189: prepend "http://" when the entered URL carries no
scheme. -/
def normalizeBaseUrl (u : String) : String :=
  if pyStartsWith u "http://" || pyStartsWith u "https://" then u
  else "http://" ++ u

/-- config_flow.py 218-258: which form `_process_user_input` re-shows when
validation did not succeed. -/
def errorFormStep (flow : FlowState) (userInput : List (String × String)) : String :=
  if (userInput.lookup "discovery_method").isSome then "user"
  else if (match userInput.lookup CONF_API_URL with
      | some u => (flow.discoveredSystems.map ConfigSystem.url).contains u
      | none => false) then "select_system"
  else if flow.discoveredSystems.length == 1 then "credentials"
  else "manual_entry"

/-- Outcome of the try block of `_process_user_input` (config_flow.py
184-215): a created entry, an inline error set by a status branch, or a
raised-and-caught exception. -/
inductive TryOutcome where
  | created (st : FlowState) (res : FlowResult)
  | inlineError (msg : String)
  | raised
deriving DecidableEq

/-- config_flow.py 184-215, the try block of `_process_user_input`, evaluated
in source order: the `user_input[CONF_API_URL]` lookup (KeyError when absent),
URL normalisation, the `self._house_id` read at line 190 (AttributeError when
the attribute was never assigned), the credential lookups used to build the
request auth (line 194), then the validation GET, whose outcome is the oracle
`resp` (`none` = network exception, `some s` = response status). -/
def tryValidate (flow : FlowState) (userInput : List (String × String))
    (resp : Option Nat) : TryOutcome :=
  match userInput.lookup CONF_API_URL with
  | none => TryOutcome.raised
  | some rawUrl =>
    let baseUrl := normalizeBaseUrl rawUrl
    match flow.houseId with
    | none => TryOutcome.raised
    | some _houseId =>
      match userInput.lookup CONF_USER, userInput.lookup CONF_PASSWORD with
      | some user, some password =>
        (match resp with
        | none => TryOutcome.raised
        | some status =>
          if status == 401 then TryOutcome.inlineError "invalid_auth"
          else if status != 200 then TryOutcome.inlineError "cannot_connect"
          else
            TryOutcome.created
              ⟨flow.discoveredSystems, userInput, flow.scanAlreadyRun, flow.houseId⟩
              (FlowResult.createEntry ("Controme (" ++ rawUrl ++ ")")
                [(CONF_API_URL, baseUrl), (CONF_USER, user),
                 (CONF_PASSWORD, password), (CONF_HAUS_ID, "1")]))
      | _, _ => TryOutcome.raised

/-- config_flow.py 180-258, `_process_user_input`: on success the entry is
created; on an inline error or a caught exception (mapped to
"cannot_connect") the appropriate form is re-shown. -/
def processUserInput (flow : FlowState) (userInput : List (String × String))
    (resp : Option Nat) : FlowState × FlowResult :=
  match tryValidate flow userInput resp with
  | TryOutcome.created st res => (st, res)
  | TryOutcome.inlineError msg =>
    (flow, FlowResult.showForm (errorFormStep flow userInput) [("base", msg)])
  | TryOutcome.raised =>
    (flow, FlowResult.showForm (errorFormStep flow userInput) [("base", "cannot_connect")])

/-- config_flow.py 127-138, `_async_scan_systems`: the scan oracle either
returns systems or raises; any exception is caught and leaves the discovered
list empty. -/
def asyncScanSystems (flow : FlowState)
    (scanResp : Except Unit (List ConfigSystem)) : FlowState :=
  match scanResp with
  | Except.ok systems => ⟨systems, flow.userInput, flow.scanAlreadyRun, flow.houseId⟩
  | Except.error _ => ⟨[], flow.userInput, flow.scanAlreadyRun, flow.houseId⟩

/-- config_flow.py 84-125, `_show_form_after_scan`: one discovered system goes
to the credentials form, several to the selection form, none to manual
entry. -/
def showFormAfterScan (flow : FlowState) : FlowResult :=
  if !flow.discoveredSystems.isEmpty then
    if flow.discoveredSystems.length == 1 then FlowResult.showForm "credentials" []
    else FlowResult.showForm "select_system" []
  else FlowResult.showForm "manual_entry" []

/-- Outcome of one wizard step: the new flow state, the flow result, and how
many network scans the step issued. -/
structure StepOutcome where
  state : FlowState
  result : FlowResult
  scansIssued : Nat
deriving DecidableEq

/-- config_flow.py 67-82, `async_step_auto_discovery`: a scan is run only when
`_scan_already_run` is not yet set; a repeated invocation reuses the cached
result set. -/
def asyncStepAutoDiscovery (flow : FlowState)
    (scanResp : Except Unit (List ConfigSystem)) : StepOutcome :=
  if flow.scanAlreadyRun then
    ⟨flow, showFormAfterScan flow, 0⟩
  else
    let flow1 : FlowState :=
      ⟨flow.discoveredSystems, flow.userInput, true, flow.houseId⟩
    let flow2 := asyncScanSystems flow1 scanResp
    ⟨flow2, showFormAfterScan flow2, 1⟩

/-- climate.py 27 / sensor.py 37: `REQUEST_TIMEOUT = ClientTimeout(total=10)`,
a constant defined in both modules. -/
def REQUEST_TIMEOUT : Nat := 10

/-- An outgoing HTTP request as the integration constructs it; `timeoutTotal`
is the per-request timeout passed to the client call, `none` when the call
site passes no timeout argument. -/
structure HttpRequest where
  method : String
  url : String
  timeoutTotal : Option Nat
deriving DecidableEq

/-- climate.py 149-170: the temperature-set POST.  The `session.post` call at
lines 163-170 passes `data` and `headers` but no timeout argument. -/
def setTemperatureRequest (baseUrl houseId roomId : String) : HttpRequest :=
  ⟨"POST", rstripSlash baseUrl ++ "/set/json/v1/" ++ houseId ++ "/ziel/" ++ roomId ++ "/",
   none⟩

/-- config_flow.py 190-195: the wizard validation GET.  The `session.get` call
passes `auth` but no timeout argument. -/
def validationRequest (baseUrl houseId : String) : HttpRequest :=
  ⟨"GET", rstripSlash baseUrl ++ "/get/json/v1/" ++ houseId ++ "/temps/", none⟩

/-- State and effects of `ContromeClimate.async_set_temperature`: the local
target temperature after the call, the number of POST requests issued, and
whether `coordinator.async_refresh()` was invoked. -/
structure SetTempOutcome where
  target : Option Rat
  posts : Nat
  refreshed : Bool
deriving DecidableEq

/-- climate.py 143-194, `async_set_temperature`.  `temperature` is
`kwargs.get(ATTR_TEMPERATURE)`; absent means return without any request.  The
oracle `resp` is the POST outcome (`none` = network exception, caught and
logged at 192-194; `some s` = response status).  Only a 200 response updates
the local target and triggers the immediate coordinator refresh. -/
def asyncSetTemperature (prevTarget : Option Rat) (temperature : Option Rat)
    (resp : Option Nat) : SetTempOutcome :=
  match temperature with
  | none => ⟨prevTarget, 0, false⟩
  | some t =>
    match resp with
    | none => ⟨prevTarget, 1, false⟩
    | some status =>
      if status != 200 then ⟨prevTarget, 1, false⟩
      else ⟨some t, 1, true⟩

/-! ## Helper lemmas -/

theorem pyStartsWith_append (p u : String) : pyStartsWith (p ++ u) p = true := by
  simp [pyStartsWith, String.data_append, List.isPrefixOf_iff_prefix]

theorem normalizeBaseUrl_scheme (u : String) :
    (pyStartsWith (normalizeBaseUrl u) "http://"
      || pyStartsWith (normalizeBaseUrl u) "https://") = true := by
  unfold normalizeBaseUrl
  by_cases h : (pyStartsWith u "http://" || pyStartsWith u "https://") = true
  · simp [h]
  · simp [h, pyStartsWith_append]

/-! ## C5 -/

/-- C5: a floor JSON object without a `raeume` list but with a `temperatur` or
`solltemperatur` key yields exactly one room, the floor itself; a floor with a
non-empty `raeume` list yields exactly those rooms and is never synthesised as
its own room. -/
theorem floor_without_rooms_is_its_own_room (floor : JVal) :
    (jget floor "raeume" = none →
      ((jget floor "temperatur").isSome ∨ (jget floor "solltemperatur").isSome) →
      roomsOfFloor floor = [floor]) ∧
    (∀ l, jget floor "raeume" = some (JVal.arr l) → l ≠ [] → roomsOfFloor floor = l) := by
  constructor
  · intro h1 h2
    unfold roomsOfFloor
    rcases h2 with h2 | h2 <;> simp [h1, jarrOf, h2]
  · intro l h1 h2
    unfold roomsOfFloor
    simp [h1, jarrOf, h2]

/-- Witness for C5 at two concrete floors. -/
theorem floor_without_rooms_is_its_own_room_witness :
    roomsOfFloor (JVal.obj [("temperatur", JVal.num 21)])
      = [JVal.obj [("temperatur", JVal.num 21)]] ∧
    roomsOfFloor (JVal.obj [("raeume", JVal.arr [JVal.obj [("id", JVal.num 3)]])])
      = [JVal.obj [("id", JVal.num 3)]] :=
  ⟨(floor_without_rooms_is_its_own_room _).1 rfl (Or.inl rfl),
   (floor_without_rooms_is_its_own_room _).2 _ rfl (by simp)⟩

/-! ## C10 -/

/-- C10: a room whose `id` field is missing or falsy makes platform setup
raise the undefined-name error for `index` (the fallback id is never
assigned), both at the single room and for the whole setup pass. -/
theorem falsy_room_id_raises_name_error (room : JVal)
    (h : optTruthy (jget room "id") = false) :
    resolveRoomId room = Except.error "NameError: name index is not defined" ∧
    setupRoomIds [JVal.obj [("raeume", JVal.arr [room])]]
      = Except.error "NameError: name index is not defined" := by
  have hr : resolveRoomId room = Except.error "NameError: name index is not defined" := by
    unfold resolveRoomId
    simp [h]
  refine ⟨hr, ?_⟩
  unfold setupRoomIds roomsOfFloor
  simp [jget, jarrOf, List.foldlM, hr, Except.bind]

/-- Witness for C10 at a room with no id field. -/
theorem falsy_room_id_raises_name_error_witness :
    resolveRoomId (JVal.obj [("name", JVal.str "Bad")])
      = Except.error "NameError: name index is not defined" ∧
    setupRoomIds [JVal.obj [("raeume", JVal.arr [JVal.obj [("name", JVal.str "Bad")]])]]
      = Except.error "NameError: name index is not defined" :=
  falsy_room_id_raises_name_error _ rfl

/-! ## C6 -/

theorem jget_single (k : String) (v : JVal) : jget (JVal.obj [(k, v)]) k = some v := by
  simp [jget]

theorem updateMain_bad (t k : String) (v : JVal) (prev : Option JVal × Bool)
    (hret : pyStartsWith t "return_" = false)
    (hnum : (sensorDescOf t).deviceClass = some SensorDeviceClass.temperature
      ∨ (sensorDescOf t).deviceClass = some SensorDeviceClass.humidity)
    (hk : List.lookup t VALUE_MAP = some k)
    (hbad : (!optTruthy (some v)
        || (match some v with
            | some (JVal.str sv) => !pyIsDigit (replaceFirstDot sv)
            | _ => false)) = true) :
    updateFromData t (JVal.obj [(k, v)]) prev = (none, false) := by
  simp only [updateFromData, hret, hk, jget_single, Bool.false_eq_true, if_false, if_pos hnum]
  simp [hbad]

/-- C6: a string value that is not a plain decimal number, assigned to a
temperature or humidity sensor field, makes the value sensor unavailable with
no native value; the embedded update function is total, so no parse exception
can escape.  The first part covers the direct room fields projected through
`VALUE_MAP`, the second the return-temperature branch. -/
theorem non_numeric_string_makes_sensor_unavailable :
    (∀ t k s prev, t ∈ ["current", "target", "humidity", "total_offset"] →
      List.lookup t VALUE_MAP = some k →
      pyIsDigit (replaceFirstDot s) = false →
      updateFromData t (JVal.obj [(k, JVal.str s)]) prev = (none, false)) ∧
    (∀ s prev, pyIsDigit (replaceFirstDot s) = false →
      updateFromData "return_RL" (JVal.obj [("sensoren",
          JVal.arr [JVal.obj [("name", JVal.str "RL"), ("wert", JVal.str s)]])]) prev
        = (none, false)) := by
  constructor
  · intro t k s prev ht hk hs
    fin_cases ht
    · exact updateMain_bad _ _ _ _ rfl (Or.inl rfl) hk (by simp [optTruthy, JVal.truthy, hs])
    · exact updateMain_bad _ _ _ _ rfl (Or.inl rfl) hk (by simp [optTruthy, JVal.truthy, hs])
    · exact updateMain_bad _ _ _ _ rfl (Or.inr rfl) hk (by simp [optTruthy, JVal.truthy, hs])
    · exact updateMain_bad _ _ _ _ rfl (Or.inl rfl) hk (by simp [optTruthy, JVal.truthy, hs])
  · intro s prev hs
    simp only [updateFromData, show pyStartsWith "return_RL" "return_" = true from rfl, if_true]
    simp [jget, jarrOf, joinWith, pySplit, splitOnChar, List.find?, List.lookup, hs]

/-- Witness for C6: the value "N/A" on the current-temperature field, and on a
return-line sensor. -/
theorem non_numeric_string_makes_sensor_unavailable_witness :
    updateFromData "current" (JVal.obj [("temperatur", JVal.str "N/A")]) (none, true)
      = (none, false) ∧
    updateFromData "return_RL" (JVal.obj [("sensoren",
        JVal.arr [JVal.obj [("name", JVal.str "RL"), ("wert", JVal.str "N/A")]])]) (none, true)
      = (none, false) :=
  ⟨non_numeric_string_makes_sensor_unavailable.1 "current" "temperatur" "N/A" (none, true)
      (by simp) rfl rfl,
   non_numeric_string_makes_sensor_unavailable.2 "N/A" (none, true) rfl⟩

/-! ## C9 -/

/-- C9: a falsy polled value (0, 0.0, the empty string, false or null) on a
temperature or humidity sensor field makes the value sensor unavailable with
no native value, although 0 is a valid numeric reading. -/
theorem falsy_value_makes_sensor_unavailable (t k : String) (v : JVal)
    (prev : Option JVal × Bool)
    (ht : t ∈ ["current", "target", "humidity", "total_offset"])
    (hk : List.lookup t VALUE_MAP = some k)
    (hv : JVal.truthy v = false) :
    updateFromData t (JVal.obj [(k, v)]) prev = (none, false) := by
  fin_cases ht
  · exact updateMain_bad _ _ _ _ rfl (Or.inl rfl) hk (by simp [optTruthy, hv])
  · exact updateMain_bad _ _ _ _ rfl (Or.inl rfl) hk (by simp [optTruthy, hv])
  · exact updateMain_bad _ _ _ _ rfl (Or.inr rfl) hk (by simp [optTruthy, hv])
  · exact updateMain_bad _ _ _ _ rfl (Or.inl rfl) hk (by simp [optTruthy, hv])

/-- Witness for C9: the numeric reading 0 on the current-temperature field. -/
theorem falsy_value_makes_sensor_unavailable_witness :
    updateFromData "current" (JVal.obj [("temperatur", JVal.num 0)]) (none, true)
      = (none, false) :=
  falsy_value_makes_sensor_unavailable "current" "temperatur" (JVal.num 0) (none, true)
    (by simp) rfl (by norm_num [JVal.truthy])

/-! ## C1 -/

/-- C1: code bug.  `_process_user_input` reads `self._house_id`
(config_flow.py line 190), an attribute that is assigned nowhere in the flow
class, so building the validation URL raises AttributeError before any GET is
issued; the blanket `except` maps it to "cannot_connect".  Hence in a fresh
manual-entry run the response status is never consulted: a 401 does not
produce "invalid_auth" and a 200 does not create a configuration record. -/
theorem manual_entry_always_cannot_connect (url user pass : String) (resp : Option Nat) :
    processUserInput initFlowState
        [(CONF_API_URL, url), (CONF_USER, user), (CONF_PASSWORD, pass)] resp
      = (initFlowState, FlowResult.showForm "manual_entry" [("base", "cannot_connect")]) := by
  simp [processUserInput, tryValidate, initFlowState, errorFormStep,
    CONF_API_URL, CONF_USER, CONF_PASSWORD, List.lookup]

/-! ## C2 -/

/-- C2 counterexample: with the house-id attribute present as the code intends
("1", the value the entry itself stores), entering "192.168.1.5/" and getting
a 200 response stores the base URL "http://192.168.1.5/", which ends with a
trailing slash: the claim that persisted URLs never end with "/" is false. -/
theorem stored_url_keeps_trailing_slash :
    (processUserInput ⟨[], [], false, some "1"⟩
        [(CONF_API_URL, "192.168.1.5/"), (CONF_USER, "u"), (CONF_PASSWORD, "p")]
        (some 200)).2
      = FlowResult.createEntry "Controme (192.168.1.5/)"
          [(CONF_API_URL, "http://192.168.1.5/"), (CONF_USER, "u"),
           (CONF_PASSWORD, "p"), (CONF_HAUS_ID, "1")]
      ∧ pyEndsWith "http://192.168.1.5/" "/" = true := ⟨rfl, rfl⟩

/-- C2 (amended): every configuration record `_process_user_input` persists
stores a base URL that starts with "http://" or "https://"; a trailing slash
of the entered URL is preserved in storage (slashes are stripped only when
request URLs are built). -/
theorem stored_url_has_scheme (flow : FlowState) (userInput : List (String × String))
    (resp : Option Nat) (title : String) (data : List (String × String))
    (h : (processUserInput flow userInput resp).2 = FlowResult.createEntry title data) :
    ∃ u, List.lookup CONF_API_URL data = some u ∧
      (pyStartsWith u "http://" || pyStartsWith u "https://") = true := by
  unfold processUserInput at h
  revert h
  unfold tryValidate
  cases hurl : List.lookup CONF_API_URL userInput with
  | none => intro h; exact absurd h (by simp)
  | some rawUrl =>
    cases hhouse : flow.houseId with
    | none => intro h; exact absurd h (by simp)
    | some houseId =>
      cases huser : List.lookup CONF_USER userInput with
      | none => intro h; exact absurd h (by simp)
      | some user =>
        cases hpass : List.lookup CONF_PASSWORD userInput with
        | none => intro h; exact absurd h (by simp)
        | some password =>
          cases resp with
          | none => intro h; exact absurd h (by simp)
          | some status =>
            by_cases h401 : (status == 401) = true
            · intro h; exact absurd h (by simp [h401])
            · by_cases h200 : (status != 200) = true
              · intro h; exact absurd h (by simp [h401, h200])
              · intro h
                simp only [h401, h200, Bool.false_eq_true, if_false] at h
                have hdata : data = [(CONF_API_URL, normalizeBaseUrl rawUrl),
                    (CONF_USER, user), (CONF_PASSWORD, password), (CONF_HAUS_ID, "1")] :=
                  (FlowResult.createEntry.injEq _ _ _ _).mp h.symm |>.2
                refine ⟨normalizeBaseUrl rawUrl, ?_, normalizeBaseUrl_scheme rawUrl⟩
                simp [hdata, List.lookup]

/-- Witness for C2 (amended) at a concrete successful run. -/
theorem stored_url_has_scheme_witness :
    ∃ u, List.lookup CONF_API_URL
        [(CONF_API_URL, "http://192.168.1.7"), (CONF_USER, "u"),
         (CONF_PASSWORD, "p"), (CONF_HAUS_ID, "1")] = some u ∧
      (pyStartsWith u "http://" || pyStartsWith u "https://") = true :=
  stored_url_has_scheme ⟨[], [], false, some "1"⟩
    [(CONF_API_URL, "192.168.1.7"), (CONF_USER, "u"), (CONF_PASSWORD, "p")]
    (some 200) "Controme (192.168.1.7)" _ rfl

/-! ## C3 -/

/-- C3: for any numeric target temperature, the set operation issues exactly
one POST; a 200 response sets the local target to that value and triggers the
immediate coordinator refresh; any non-200 response leaves the local target
unchanged and triggers no refresh. -/
theorem set_temperature_behaviour (prev : Option Rat) (t : Rat) (status : Nat) :
    (asyncSetTemperature prev (some t) (some status)).posts = 1 ∧
    (status = 200 →
      asyncSetTemperature prev (some t) (some status) = ⟨some t, 1, true⟩) ∧
    (status ≠ 200 →
      asyncSetTemperature prev (some t) (some status) = ⟨prev, 1, false⟩) := by
  refine ⟨?_, ?_, ?_⟩
  · by_cases h : status = 200 <;> simp [asyncSetTemperature, h]
  · intro h; simp [asyncSetTemperature, h]
  · intro h; simp [asyncSetTemperature, h]

/-- Witness for C3: setting 21.5 with a 200 response updates and refreshes;
with a 403 response nothing changes and no refresh happens. -/
theorem set_temperature_behaviour_witness :
    asyncSetTemperature none (some (43 / 2)) (some 200) = ⟨some (43 / 2), 1, true⟩ ∧
    asyncSetTemperature none (some (43 / 2)) (some 403) = ⟨none, 1, false⟩ :=
  ⟨(set_temperature_behaviour none (43 / 2) 200).2.1 rfl,
   (set_temperature_behaviour none (43 / 2) 403).2.2 (by norm_num)⟩

/-! ## C4 -/

/-- C4 counterexample: the temperature-set POST is issued without the
`REQUEST_TIMEOUT` of 10 (climate.py 163-170 passes no timeout), refuting the
claim that every outgoing call carries the fixed 10-unit timeout. -/
theorem set_temperature_request_has_no_timeout :
    ¬((setTemperatureRequest "http://host" "1" "7").timeoutTotal
        = some REQUEST_TIMEOUT) := by
  simp [setTemperatureRequest]

/-- C4 (amended): `REQUEST_TIMEOUT` is defined as 10 but never applied: both
the temperature-set POST and the wizard validation GET are issued with no
per-request timeout. -/
theorem requests_issued_without_timeout :
    REQUEST_TIMEOUT = 10 ∧
    (∀ b h r, (setTemperatureRequest b h r).timeoutTotal = none) ∧
    (∀ b h, (validationRequest b h).timeoutTotal = none) :=
  ⟨rfl, fun _ _ _ => rfl, fun _ _ => rfl⟩

/-! ## C7 -/

/-- C7: invoking auto-discovery a second time within one wizard run issues no
second scan, keeps the first run's discovered systems, and derives its form
from that cached result set. -/
theorem second_auto_discovery_uses_cache (flow : FlowState)
    (resp1 resp2 : Except Unit (List ConfigSystem))
    (h : flow.scanAlreadyRun = false) :
    ((asyncStepAutoDiscovery (asyncStepAutoDiscovery flow resp1).state resp2).scansIssued = 0) ∧
    ((asyncStepAutoDiscovery (asyncStepAutoDiscovery flow resp1).state resp2).state
      = (asyncStepAutoDiscovery flow resp1).state) ∧
    ((asyncStepAutoDiscovery (asyncStepAutoDiscovery flow resp1).state resp2).result
      = showFormAfterScan (asyncStepAutoDiscovery flow resp1).state) := by
  cases resp1 <;> simp [asyncStepAutoDiscovery, asyncScanSystems, h]

/-- Witness for C7: a fresh flow whose first scan finds one system; the second
invocation issues no scan even though its own oracle would find none. -/
theorem second_auto_discovery_uses_cache_witness :
    ((asyncStepAutoDiscovery
        (asyncStepAutoDiscovery initFlowState (Except.ok [⟨"http://a", "A"⟩])).state
        (Except.ok [])).scansIssued = 0) ∧
    ((asyncStepAutoDiscovery
        (asyncStepAutoDiscovery initFlowState (Except.ok [⟨"http://a", "A"⟩])).state
        (Except.ok [])).state
      = (asyncStepAutoDiscovery initFlowState (Except.ok [⟨"http://a", "A"⟩])).state) ∧
    ((asyncStepAutoDiscovery
        (asyncStepAutoDiscovery initFlowState (Except.ok [⟨"http://a", "A"⟩])).state
        (Except.ok [])).result
      = showFormAfterScan (asyncStepAutoDiscovery initFlowState (Except.ok [⟨"http://a", "A"⟩])).state) :=
  second_auto_discovery_uses_cache initFlowState (Except.ok [⟨"http://a", "A"⟩])
    (Except.ok []) rfl

/-! ## C8 -/

/-- C8: when the scan raises or finds no systems, the auto-discovery step
shows the manual-entry form (never the credentials or system-selection form,
and no hard error: the step still returns a form). -/
theorem empty_or_failed_scan_shows_manual_entry (flow : FlowState)
    (scanResp : Except Unit (List ConfigSystem))
    (hFresh : flow.scanAlreadyRun = false)
    (hEmpty : scanResp = Except.error () ∨ scanResp = Except.ok []) :
    (asyncStepAutoDiscovery flow scanResp).result
      = FlowResult.showForm "manual_entry" [] := by
  rcases hEmpty with h | h <;> subst h <;>
    simp [asyncStepAutoDiscovery, asyncScanSystems, showFormAfterScan, hFresh]

/-- Witness for C8: a failing scan on a fresh flow routes to manual entry. -/
theorem empty_or_failed_scan_shows_manual_entry_witness :
    (asyncStepAutoDiscovery initFlowState (Except.error ())).result
      = FlowResult.showForm "manual_entry" [] :=
  empty_or_failed_scan_shows_manual_entry initFlowState (Except.error ()) rfl (Or.inl rfl)

end Controme
